import Mathlib

/-!
Shallow embedding of the core of the `ndt5-client-go` repository: the ndt5
frame codec, the raw-TCP and WebSocket control-connection transports, the
control-protocol steps, the session orchestrator's test loop, the web100
result parser, and the measurement samplers.

Bytes are modelled as `Nat` (each value `< 256` where it comes off the wire);
Go's `uint16` arithmetic is modelled with explicit `% 65536`; fallible Go
functions returning `(value, error)` become `Except GoErr value`.
-/

/-- Error values produced by the embedded code. Each stable Go error identity
(`ErrMessageSize`, `ErrInvalidKickoff`, ...) has its own constructor;
`fmt.Errorf("step: %w", err)` wrapping is the `wrap` constructor, and
run-time panics (e.g. Go slice-bounds panics) are modelled as the explicit
outcome `panicSliceBounds`. -/
inductive GoErr where
  | errMessageSize
  | errInvalidKickoff
  | errServerBusy
  | errUnexpectedMessage
  | errExpectedNonEmptyMessage
  | parseUintSyntax
  | parseUintRange
  | wsNotBinary
  | wsFrameTooLarge
  | wsFrameTooSmall
  | wsIncompleteFrame
  | panicSliceBounds
  | ioError
  | errorf (msg : String)
  | wrap (context : String) (inner : GoErr)
deriving DecidableEq

/-- `errors.Is(err, target)`: an error matches a target if it equals it or
wraps (transitively) an error equal to it. -/
def GoErr.is : GoErr → GoErr → Bool
  | e@(.wrap _ inner), target => decide (e = target) || inner.is target
  | e, target => decide (e = target)

/-- The `Frame` struct of `ndt5.go`: parsed message body, raw wire bytes and
the one-byte message type. -/
structure GoFrame where
  message : List Nat
  raw : List Nat
  type : Nat
deriving DecidableEq

/-- `maxMessageSize = math.MaxUint16` from `ndt5.go`. -/
def maxMessageSize : Nat := 65535

/-- `maxFrameSize = 3 + maxMessageSize` from `ndt5.go`. -/
def maxFrameSize : Nat := 3 + maxMessageSize

/-- Message-type constant `msgSrvQueue` from `ndt5.go`. -/
def msgSrvQueue : Nat := 1

/-- Message-type constant `msgLogin` from `ndt5.go`. -/
def msgLogin : Nat := 2

/-- Message-type constant `msgTestPrepare` from `ndt5.go`. -/
def msgTestPrepare : Nat := 3

/-- Message-type constant `msgTestStart` from `ndt5.go`. -/
def msgTestStart : Nat := 4

/-- Message-type constant `msgTestMsg` from `ndt5.go`. -/
def msgTestMsg : Nat := 5

/-- Message-type constant `msgTestFinalize` from `ndt5.go`. -/
def msgTestFinalize : Nat := 6

/-- Message-type constant `msgResults` from `ndt5.go`. -/
def msgResults : Nat := 8

/-- Message-type constant `msgLogout` from `ndt5.go`. -/
def msgLogout : Nat := 9

/-- Test-suite bit `nettestUpload = 1 << 1` from `ndt5.go`. -/
def nettestUpload : Nat := 2

/-- Test-suite bit `nettestDownload = 1 << 2` from `ndt5.go`. -/
def nettestDownload : Nat := 4

/-- Test-suite bit `nettestStatus = 1 << 4` from `ndt5.go`. -/
def nettestStatus : Nat := 16

/-- UTF-8 encoding of one character, as Go's `[]byte(string)` conversion
produces (byte values as `Nat`). -/
def charUTF8 (c : Char) : List Nat :=
  let v := c.toNat
  if v < 128 then [v]
  else if v < 2048 then [192 + v / 64, 128 + v % 64]
  else if v < 65536 then [224 + v / 4096, 128 + v / 64 % 64, 128 + v % 64]
  else [240 + v / 262144, 128 + v / 4096 % 64, 128 + v / 64 % 64, 128 + v % 64]

/-- Go's `[]byte(s)` conversion: the UTF-8 bytes of `s`, as `Nat`s. -/
def strBytes (s : String) : List Nat :=
  s.data.foldr (fun c acc => charUTF8 c ++ acc) []

/-- `NewFrame` from `ndt5.go`: rejects bodies longer than `maxMessageSize`
with `ErrMessageSize`, otherwise builds the frame whose raw form is
`<type:u8> <length:u16 big-endian> <message>`. -/
def NewFrame (mtype : Nat) (message : List Nat) : Except GoErr GoFrame :=
  if message.length > maxMessageSize then
    .error .errMessageSize
  else
    .ok { message := message
          raw := mtype :: message.length / 256 :: message.length % 256 :: message
          type := mtype }

/-- `rawControlConn.ReadFrame` from `raw.go`, reading from a byte stream:
reads 1 type byte and 2 length bytes, computes
`size := binary.BigEndian.Uint16(b[1:3]) + 3` in Go `uint16` arithmetic
(hence the `% 65536`), then slices `b[3:size]`. When the `uint16` sum wraps
below 3 the Go slice expression `b[3:size]` has its low bound above its high
bound and panics at run time (`panicSliceBounds`). A stream too short for the
requested bytes is the I/O error path of `readn`. -/
def rawReadFrame (stream : List Nat) : Except GoErr GoFrame :=
  match stream with
  | t :: hi :: lo :: rest =>
    let size := (hi * 256 + lo + 3) % 65536
    if size < 3 then .error .panicSliceBounds
    else if rest.length < size - 3 then .error .ioError
    else .ok { message := rest.take (size - 3)
               raw := t :: hi :: lo :: rest.take (size - 3)
               type := t }
  | _ => .error .ioError

/-- Claim C3: for every body longer than 65535 bytes, `NewFrame` fails with
the stable error identity `ErrMessageSize` and produces no frame; for bodies
of at most 65535 bytes it never fails, and the produced frame carries exactly
the given type and body. -/
theorem newFrame_size_check (t : Nat) (b : List Nat) :
    (b.length > 65535 → NewFrame t b = .error .errMessageSize) ∧
    (b.length ≤ 65535 → ∃ f, NewFrame t b = .ok f ∧ f.message = b ∧ f.type = t) := by
  constructor
  · intro h
    simp [NewFrame, maxMessageSize, h]
  · intro h
    refine ⟨{ message := b, raw := t :: b.length / 256 :: b.length % 256 :: b, type := t },
      ?_, rfl, rfl⟩
    simp [NewFrame, maxMessageSize, Nat.not_lt.mpr h]

/-- Witness for `newFrame_size_check`: the oversize case at a 65536-byte body
of `x` bytes and the in-range case at the 5-byte body `"hello"`. -/
theorem newFrame_size_check_witness :
    ((List.replicate 65536 120).length > 65535 ∧
      NewFrame 1 (List.replicate 65536 120) = .error .errMessageSize) ∧
    ((strBytes "hello").length ≤ 65535 ∧
      ∃ f, NewFrame 5 (strBytes "hello") = .ok f ∧
        f.message = strBytes "hello" ∧ f.type = 5) := by
  have h1 : (List.replicate 65536 120).length > 65535 := by
    rw [List.length_replicate]
    omega
  have h2 : (strBytes "hello").length ≤ 65535 := by decide
  exact ⟨⟨h1, (newFrame_size_check 1 _).1 h1⟩, ⟨h2, (newFrame_size_check 5 _).2 h2⟩⟩

/-- Claim C2 (code bug): encode-then-decode round-trips for the documented
example — `NewFrame 5 "hello"` yields the bytes `05 00 05 68 65 6C 6C 6F`
and `rawReadFrame` of those bytes yields `(5, "hello")` — but the round-trip
invariant fails for bodies of length 65533, 65534 or 65535: there
`rawControlConn.ReadFrame`'s `uint16` computation `length + 3` wraps below 3
and the slice `b[3:size]` panics, so the decoder crashes on a frame the
encoder legally produced. The last two conjuncts evaluate the code at the
failing input (body = 65533 repetitions of byte 97). -/
theorem frame_roundtrip_uint16_wraparound :
    (NewFrame 5 (strBytes "hello") =
      .ok { message := [104, 101, 108, 108, 111]
            raw := [5, 0, 5, 104, 101, 108, 108, 111]
            type := 5 }) ∧
    (rawReadFrame [5, 0, 5, 104, 101, 108, 108, 111] =
      .ok { message := [104, 101, 108, 108, 111]
            raw := [5, 0, 5, 104, 101, 108, 108, 111]
            type := 5 }) ∧
    (NewFrame 5 (List.replicate 65533 97) =
      .ok { message := List.replicate 65533 97
            raw := 5 :: 255 :: 253 :: List.replicate 65533 97
            type := 5 }) ∧
    (rawReadFrame (5 :: 255 :: 253 :: List.replicate 65533 97) =
      .error .panicSliceBounds) := by
  refine ⟨rfl, rfl, ?_, rfl⟩
  unfold NewFrame
  rw [List.length_replicate]
  norm_num [maxMessageSize]

/-- The kick-off sentinel `"123456 654321"` from `protocol.go`. -/
def kickoffMessage : List Nat := strBytes "123456 654321"

/-- `rawControlConn.ReadKickoffMessage` from `raw.go`: `readn(b)` fills the
whole caller buffer `b` from the socket byte stream; a stream shorter than
the buffer is the I/O error path. -/
def rawReadKickoffMessage (stream : List Nat) (b : List Nat) : Except GoErr (List Nat) :=
  if stream.length < b.length then .error .ioError
  else .ok (stream.take b.length)

/-- `wsControlConn.ReadKickoffMessage` from `controlconn.go`: performs no
network read at all; `copy(b, kickoffMessage)` overwrites the first
`min |b| 13` bytes of the caller buffer with the sentinel and returns nil. -/
def wsReadKickoffMessage (b : List Nat) : Except GoErr (List Nat) :=
  .ok (kickoffMessage.take b.length ++ b.drop kickoffMessage.length)

/-- `protocol5.ReceiveKickoff` from `protocol.go`, over an abstract
transport's `ReadKickoffMessage`: allocates a buffer of the sentinel's
length, fills it via the transport, and compares with the sentinel,
failing with `ErrInvalidKickoff` on mismatch. -/
def ReceiveKickoff (readKickoffMessage : List Nat → Except GoErr (List Nat)) :
    Except GoErr Unit :=
  match readKickoffMessage (List.replicate kickoffMessage.length 0) with
  | .error e => .error e
  | .ok received =>
    if received = kickoffMessage then .ok () else .error .errInvalidKickoff

/-- `protocol5.WaitInQueue` from `protocol.go`, over the result of
`cc.ReadFrame()`: a non-`SRV_QUEUE` frame fails with wrapped
`ErrUnexpectedMessage`; a `SRV_QUEUE` frame whose body is not `"0"` fails
with `ErrServerBusy`. -/
def WaitInQueue (readFrame : Except GoErr GoFrame) : Except GoErr Unit :=
  match readFrame with
  | .error e => .error e
  | .ok frame =>
    if frame.type ≠ msgSrvQueue then .error (.wrap "WaitInQueue" .errUnexpectedMessage)
    else if frame.message ≠ strBytes "0" then .error .errServerBusy
    else .ok ()

/-- The decimal value of a digit string (bytes), as accumulated digit by
digit by `strconv.ParseUint`. -/
def decimalValue (s : List Nat) : Nat :=
  s.foldl (fun acc c => acc * 10 + (c - 48)) 0

/-- `strconv.ParseUint(string(elem), 10, 8)` as used by `ReceiveTestIDs`:
empty or non-digit input is a syntax error; a value above 255 is a range
error. -/
def parseUint8 (s : List Nat) : Except GoErr Nat :=
  if s.isEmpty then .error .parseUintSyntax
  else if s.all (fun c => 48 ≤ c && c ≤ 57) then
    if decimalValue s > 255 then .error .parseUintRange else .ok (decimalValue s)
  else .error .parseUintSyntax

/-- The element loop of `protocol5.ReceiveTestIDs`: parse each split element
as a `u8`, stopping at the first parse error. -/
def parseTestIDs : List (List Nat) → Except GoErr (List Nat)
  | [] => .ok []
  | e :: rest =>
    match parseUint8 e with
    | .error err => .error err
    | .ok v =>
      match parseTestIDs rest with
      | .error err => .error err
      | .ok ids => .ok (v :: ids)

/-- `protocol5.ReceiveTestIDs` from `protocol.go`, over the result of
`cc.ReadFrame()`: a non-`LOGIN` frame fails with wrapped
`ErrUnexpectedMessage`; an empty body yields the empty plan; otherwise the
body is split on single spaces (byte 32) and each element parsed as a `u8`
decimal. -/
def ReceiveTestIDs (readFrame : Except GoErr GoFrame) : Except GoErr (List Nat) :=
  match readFrame with
  | .error e => .error e
  | .ok frame =>
    if frame.type ≠ msgLogin then .error (.wrap "ReceiveTestIDsList" .errUnexpectedMessage)
    else if frame.message.isEmpty then .ok []
    else parseTestIDs (frame.message.splitOn 32)

/-- Claim C4: `WaitInQueue` succeeds exactly on a `SRV_QUEUE` frame with body
`"0"`; a non-`SRV_QUEUE` frame yields an error wrapping
`ErrUnexpectedMessage` (in the `errors.Is` sense), and a `SRV_QUEUE` frame
with a different body yields `ErrServerBusy`. -/
theorem waitInQueue_cases (frame : GoFrame) :
    (WaitInQueue (.ok frame) = .ok () ↔
      frame.type = msgSrvQueue ∧ frame.message = strBytes "0") ∧
    (frame.type ≠ msgSrvQueue →
      WaitInQueue (.ok frame) = .error (.wrap "WaitInQueue" .errUnexpectedMessage)) ∧
    ((GoErr.wrap "WaitInQueue" .errUnexpectedMessage).is .errUnexpectedMessage = true) ∧
    (frame.type = msgSrvQueue → frame.message ≠ strBytes "0" →
      WaitInQueue (.ok frame) = .error .errServerBusy) := by
  refine ⟨⟨?_, ?_⟩, ?_, by decide, ?_⟩
  · intro h
    by_cases h1 : frame.type = msgSrvQueue
    · by_cases h2 : frame.message = strBytes "0"
      · exact ⟨h1, h2⟩
      · simp [WaitInQueue, h1, h2] at h
    · simp [WaitInQueue, h1] at h
  · rintro ⟨h1, h2⟩
    simp [WaitInQueue, h1, h2]
  · intro h1
    simp [WaitInQueue, h1]
  · intro h1 h2
    simp [WaitInQueue, h1, h2]

/-- Witness for `waitInQueue_cases`: the busy case at `SRV_QUEUE "9999"` and
the unexpected-type case at `LOGIN "0"`. -/
theorem waitInQueue_cases_witness :
    (WaitInQueue (.ok { message := strBytes "9999", raw := [], type := 1 }) =
      .error .errServerBusy) ∧
    (WaitInQueue (.ok { message := strBytes "0", raw := [], type := 2 }) =
      .error (.wrap "WaitInQueue" .errUnexpectedMessage)) := by
  constructor
  · exact (waitInQueue_cases { message := strBytes "9999", raw := [], type := 1 }).2.2.2
      rfl (by decide)
  · exact (waitInQueue_cases { message := strBytes "0", raw := [], type := 2 }).2.1
      (by decide)

/-- `ReceiveKickoff` over the raw transport only looks at the first 13 stream
bytes: with at least 13 bytes available it succeeds exactly when they equal
the sentinel, otherwise failing with `ErrInvalidKickoff`. -/
theorem receiveKickoff_raw_take (stream : List Nat) (h : 13 ≤ stream.length) :
    ReceiveKickoff (rawReadKickoffMessage stream) =
      if stream.take 13 = kickoffMessage then .ok () else .error .errInvalidKickoff := by
  have hk : kickoffMessage.length = 13 := by decide
  simp only [ReceiveKickoff, rawReadKickoffMessage, hk, List.length_replicate]
  rw [if_neg (by omega)]

/-- Claim C5: over the raw transport, `ReceiveKickoff` reads exactly 13 bytes
(its outcome depends only on the first 13 stream bytes) and succeeds if and
only if they equal `"123456 654321"`, returning `ErrInvalidKickoff` on any
mismatch such as `"654321 123456"`; over the WebSocket transport,
`ReadKickoffMessage` takes no stream at all (it copies the sentinel into the
caller's buffer) and `ReceiveKickoff` always succeeds. -/
theorem receiveKickoff_transports :
    (∀ stream : List Nat, 13 ≤ stream.length →
      ReceiveKickoff (rawReadKickoffMessage stream) =
        if stream.take 13 = kickoffMessage then .ok () else .error .errInvalidKickoff) ∧
    (∀ s t : List Nat, s.take 13 = t.take 13 →
      ReceiveKickoff (rawReadKickoffMessage s) = ReceiveKickoff (rawReadKickoffMessage t)) ∧
    (ReceiveKickoff (rawReadKickoffMessage (strBytes "654321 123456")) =
      .error .errInvalidKickoff) ∧
    (ReceiveKickoff wsReadKickoffMessage = .ok ()) := by
  have hk : kickoffMessage.length = 13 := by decide
  refine ⟨receiveKickoff_raw_take, ?_, ?_, rfl⟩
  · intro s t h
    have hlen : min 13 s.length = min 13 t.length := by
      have := congrArg List.length h
      simpa [List.length_take] using this
    rcases Nat.lt_or_ge s.length 13 with hs | hs
    · have ht : t.length < 13 := by omega
      simp [ReceiveKickoff, rawReadKickoffMessage, hk, List.length_replicate, hs, ht]
    · have ht : 13 ≤ t.length := by omega
      rw [receiveKickoff_raw_take s hs, receiveKickoff_raw_take t ht, h]
  · rw [receiveKickoff_raw_take (strBytes "654321 123456") (by decide)]
    rfl

/-- `parseUint8` succeeds exactly on a non-empty all-digit string whose
decimal value fits in a `u8`, and then returns that value. -/
theorem parseUint8_ok_iff (e : List Nat) :
    ((∃ v, parseUint8 e = .ok v) ↔
      (e ≠ [] ∧ e.all (fun c => 48 ≤ c && c ≤ 57) ∧ decimalValue e ≤ 255)) ∧
    (∀ v, parseUint8 e = .ok v → v = decimalValue e) := by
  unfold parseUint8
  by_cases h0 : e.isEmpty
  · simp [h0, List.isEmpty_iff.mp h0]
  · have hne : e ≠ [] := fun hnil => h0 (by simp [hnil])
    by_cases h1 : e.all (fun c => 48 ≤ c && c ≤ 57)
    · by_cases h2 : decimalValue e > 255
      · rw [if_neg h0, if_pos h1, if_pos h2]
        refine ⟨⟨?_, ?_⟩, ?_⟩
        · rintro ⟨v, hv⟩; cases hv
        · rintro ⟨-, -, h3⟩; omega
        · intro v hv; cases hv
      · rw [if_neg h0, if_pos h1, if_neg h2]
        refine ⟨⟨?_, ?_⟩, ?_⟩
        · intro _; exact ⟨hne, h1, by omega⟩
        · intro _; exact ⟨decimalValue e, rfl⟩
        · intro v hv
          injection hv with h
          exact h.symm
    · rw [if_neg h0, if_neg h1]
      refine ⟨⟨?_, ?_⟩, ?_⟩
      · rintro ⟨v, hv⟩; cases hv
      · rintro ⟨-, hall, -⟩; exact absurd hall h1
      · intro v hv; cases hv

/-- `parseTestIDs` succeeds exactly when every element parses as a `u8`
decimal, and then yields the elementwise decimal values. -/
theorem parseTestIDs_ok_iff (l : List (List Nat)) :
    ((∃ ids, parseTestIDs l = .ok ids) ↔ ∀ e ∈ l, ∃ v, parseUint8 e = .ok v) ∧
    (∀ ids, parseTestIDs l = .ok ids → ids = l.map decimalValue) := by
  induction l with
  | nil => simp [parseTestIDs]
  | cons e rest ih =>
    constructor
    · constructor
      · rintro ⟨ids, hids⟩ x hx
        simp only [parseTestIDs] at hids
        rcases he : parseUint8 e with err | v
        · simp [he] at hids
        · simp only [he] at hids
          rcases hr : parseTestIDs rest with err | ids'
          · simp [hr] at hids
          · rcases List.mem_cons.mp hx with hx | hx
            · exact hx ▸ ⟨v, he⟩
            · exact (ih.1.mp ⟨ids', hr⟩) x hx
      · intro hall
        rcases hall e (List.mem_cons_self e rest) with ⟨v, hv⟩
        rcases ih.1.mpr (fun x hx => hall x (List.mem_cons_of_mem e hx)) with ⟨ids', hr⟩
        exact ⟨v :: ids', by simp [parseTestIDs, hv, hr]⟩
    · intro ids hids
      simp only [parseTestIDs] at hids
      rcases he : parseUint8 e with err | v
      · simp [he] at hids
      · simp only [he] at hids
        rcases hr : parseTestIDs rest with err | ids'
        · simp [hr] at hids
        · simp only [hr] at hids
          injection hids with h
          subst h
          simp [(parseUint8_ok_iff e).2 v he, ih.2 ids' hr]

/-- Claim C6: `ReceiveTestIDs` returns an empty plan when the `LOGIN` frame
body is empty; otherwise it splits the body on single spaces and succeeds
exactly when every element is a non-empty decimal fitting in a `u8` (so any
non-numeric element fails the whole operation), returning the parsed ids;
a frame whose type is not `LOGIN` fails with wrapped `ErrUnexpectedMessage`. -/
theorem receiveTestIDs_parsing (frame : GoFrame) :
    (frame.type = msgLogin → frame.message = [] → ReceiveTestIDs (.ok frame) = .ok []) ∧
    (frame.type = msgLogin → frame.message ≠ [] →
      (((∃ ids, ReceiveTestIDs (.ok frame) = .ok ids) ↔
          ∀ e ∈ frame.message.splitOn 32,
            e ≠ [] ∧ e.all (fun c => 48 ≤ c && c ≤ 57) ∧ decimalValue e ≤ 255) ∧
        (∀ ids, ReceiveTestIDs (.ok frame) = .ok ids →
          ids = (frame.message.splitOn 32).map decimalValue))) ∧
    (frame.type ≠ msgLogin →
      ReceiveTestIDs (.ok frame) = .error (.wrap "ReceiveTestIDsList" .errUnexpectedMessage) ∧
      (GoErr.wrap "ReceiveTestIDsList" .errUnexpectedMessage).is .errUnexpectedMessage = true) := by
  refine ⟨?_, ?_, ?_⟩
  · intro h1 h2
    simp [ReceiveTestIDs, h1, h2]
  · intro h1 h2
    have hred : ReceiveTestIDs (.ok frame) = parseTestIDs (frame.message.splitOn 32) := by
      simp [ReceiveTestIDs, h1, List.isEmpty_iff, h2]
    rw [hred]
    constructor
    · constructor
      · intro h e he
        exact ((parseUint8_ok_iff e).1).mp ((parseTestIDs_ok_iff _).1.mp h e he)
      · intro h
        exact (parseTestIDs_ok_iff _).1.mpr
          (fun e he => ((parseUint8_ok_iff e).1).mpr (h e he))
    · exact (parseTestIDs_ok_iff _).2
  · intro h1
    exact ⟨by simp [ReceiveTestIDs, h1], by decide⟩

/-- Witness for `receiveTestIDs_parsing`: the empty plan at an empty `LOGIN`
body, a successful parse of body `"2 4"`, a failing parse of the
non-numeric body `"2 x"`, and the unexpected-type error at a `TEST_MSG`
frame. -/
theorem receiveTestIDs_parsing_witness :
    (ReceiveTestIDs (.ok { message := [], raw := [], type := 2 }) = .ok []) ∧
    (∃ ids, ReceiveTestIDs (.ok { message := strBytes "2 4", raw := [], type := 2 }) =
      .ok ids) ∧
    (¬ ∃ ids, ReceiveTestIDs (.ok { message := strBytes "2 x", raw := [], type := 2 }) =
      .ok ids) ∧
    (ReceiveTestIDs (.ok { message := strBytes "0", raw := [], type := 5 }) =
      .error (.wrap "ReceiveTestIDsList" .errUnexpectedMessage)) := by
  refine ⟨(receiveTestIDs_parsing _).1 rfl rfl, ?_, ?_, ?_⟩
  · exact ((receiveTestIDs_parsing
      { message := strBytes "2 4", raw := [], type := 2 }).2.1 rfl (by decide)).1.mpr
      (by decide)
  · intro h
    exact absurd (((receiveTestIDs_parsing
      { message := strBytes "2 x", raw := [], type := 2 }).2.1 rfl (by decide)).1.mp h)
      (by decide)
  · exact ((receiveTestIDs_parsing
      { message := strBytes "0", raw := [], type := 5 }).2.2 (by decide)).1

/-- Witness for `receiveKickoff_transports`: a 14-byte stream starting with
the sentinel, and two streams agreeing on their first 13 bytes. -/
theorem receiveKickoff_transports_witness :
    (ReceiveKickoff (rawReadKickoffMessage (kickoffMessage ++ [7])) =
      if (kickoffMessage ++ [7]).take 13 = kickoffMessage then .ok ()
      else .error .errInvalidKickoff) ∧
    (ReceiveKickoff (rawReadKickoffMessage (kickoffMessage ++ [7])) =
      ReceiveKickoff (rawReadKickoffMessage (kickoffMessage ++ [9]))) := by
  exact ⟨receiveKickoff_transports.1 _ (by decide),
    receiveKickoff_transports.2.1 _ _ (by decide)⟩

/-- The JSON shape `wsMessage` of `controlconn.go`: the `msg` field plus the
three server throughput fields. -/
structure WsMessage where
  msg : String
  throughputValue : String
  totalSentByte : String
  unsentDataAmount : String
deriving DecidableEq

/-- The gorilla/websocket `BinaryMessage` message-type constant. -/
def websocketBinaryMessage : Nat := 2

/-- The big-endian `u16` header length of a wire message (bytes 1 and 2). -/
def headerLen (mdata : List Nat) : Nat :=
  mdata.getD 1 0 * 256 + mdata.getD 2 0

/-- `wsControlConn.ReadFrame` from `controlconn.go`, over one received
WebSocket message (its gorilla message type plus payload bytes) and an
abstract `json.Unmarshal` into `wsMessage`: rejects non-binary messages,
payloads above `maxFrameSize` or below 3 bytes, and payloads whose header
length (in Go `uint16` arithmetic, hence `% 65536`) plus 3 is not the
payload length; on success the frame keeps the raw payload unchanged and
its message is the three throughput fields joined by single spaces when all
three are non-empty, otherwise the JSON `msg` field. -/
def wsReadFrame (msgType : Nat) (mdata : List Nat)
    (jsonUnmarshal : List Nat → Except GoErr WsMessage) : Except GoErr GoFrame :=
  if msgType ≠ websocketBinaryMessage then .error .wsNotBinary
  else if mdata.length > maxFrameSize then .error .wsFrameTooLarge
  else if mdata.length < 3 then .error .wsFrameTooSmall
  else
    match mdata with
    | t :: hi :: lo :: rest =>
      if (hi * 256 + lo + 3) % 65536 ≠ (t :: hi :: lo :: rest).length then
        .error .wsIncompleteFrame
      else
        match jsonUnmarshal rest with
        | .error e => .error e
        | .ok m =>
          .ok { message := strBytes
                  (if m.throughputValue ≠ "" ∧ m.unsentDataAmount ≠ "" ∧ m.totalSentByte ≠ ""
                   then m.throughputValue ++ " " ++ m.unsentDataAmount ++ " " ++ m.totalSentByte
                   else m.msg)
                raw := t :: hi :: lo :: rest
                type := t }
    | _ => .error .wsFrameTooSmall

/-- Reduction of `wsReadFrame` on a binary message of at least 3 and at most
`maxFrameSize` bytes: only the header-length check and the JSON parse
remain. -/
theorem wsReadFrame_cons (msgType t hi lo : Nat) (rest : List Nat)
    (jsonUnmarshal : List Nat → Except GoErr WsMessage)
    (hbin : msgType = websocketBinaryMessage)
    (hL1 : ¬(t :: hi :: lo :: rest).length > maxFrameSize) :
    wsReadFrame msgType (t :: hi :: lo :: rest) jsonUnmarshal =
      if (hi * 256 + lo + 3) % 65536 ≠ (t :: hi :: lo :: rest).length then
        .error .wsIncompleteFrame
      else
        match jsonUnmarshal rest with
        | .error e => .error e
        | .ok m =>
          .ok { message := strBytes
                  (if m.throughputValue ≠ "" ∧ m.unsentDataAmount ≠ "" ∧
                      m.totalSentByte ≠ ""
                   then m.throughputValue ++ " " ++ m.unsentDataAmount ++ " " ++
                      m.totalSentByte
                   else m.msg)
                raw := t :: hi :: lo :: rest
                type := t } := by
  unfold wsReadFrame
  rw [if_neg (by simp [hbin]), if_neg hL1,
    if_neg (by simp only [List.length_cons]; omega)]

/-- Claim C7: the WebSocket control `ReadFrame` accepts a binary message only
when `3 ≤ |msg| ≤ 65538` and the big-endian `u16` header length satisfies
`header.length + 3 = |msg|`, failing otherwise; on success the frame's `Raw`
field preserves the received bytes unchanged, its type is the first byte,
and the decoded `Message` is the three fields `ThroughputValue`,
`UnsentDataAmount`, `TotalSentByte` joined by single spaces in that order
when all three are non-empty, and the JSON `msg` field otherwise. -/
theorem wsReadFrame_spec (msgType : Nat) (mdata : List Nat)
    (jsonUnmarshal : List Nat → Except GoErr WsMessage)
    (hbytes : ∀ b ∈ mdata, b < 256) :
    ((∃ f, wsReadFrame msgType mdata jsonUnmarshal = .ok f) →
      3 ≤ mdata.length ∧ mdata.length ≤ 65538 ∧ headerLen mdata + 3 = mdata.length) ∧
    (¬(3 ≤ mdata.length ∧ mdata.length ≤ 65538 ∧ headerLen mdata + 3 = mdata.length) →
      ∃ e, wsReadFrame msgType mdata jsonUnmarshal = .error e) ∧
    (∀ f, wsReadFrame msgType mdata jsonUnmarshal = .ok f →
      f.raw = mdata ∧ f.type = mdata.getD 0 0 ∧
      ∀ m, jsonUnmarshal (mdata.drop 3) = .ok m →
        (m.throughputValue ≠ "" ∧ m.unsentDataAmount ≠ "" ∧ m.totalSentByte ≠ "" →
          f.message = strBytes
            (m.throughputValue ++ " " ++ m.unsentDataAmount ++ " " ++ m.totalSentByte)) ∧
        (¬(m.throughputValue ≠ "" ∧ m.unsentDataAmount ≠ "" ∧ m.totalSentByte ≠ "") →
          f.message = strBytes m.msg)) := by
  by_cases hbin : msgType = websocketBinaryMessage
  · by_cases hL1 : mdata.length > maxFrameSize
    · have hw : wsReadFrame msgType mdata jsonUnmarshal = .error .wsFrameTooLarge := by
        unfold wsReadFrame
        rw [if_neg (by simp [hbin]), if_pos hL1]
      refine ⟨?_, fun _ => ⟨_, hw⟩, ?_⟩
      · rintro ⟨f, hf⟩; rw [hw] at hf; cases hf
      · intro f hf; rw [hw] at hf; cases hf
    · by_cases hL2 : mdata.length < 3
      · have hw : wsReadFrame msgType mdata jsonUnmarshal = .error .wsFrameTooSmall := by
          unfold wsReadFrame
        
          rw [if_neg (by simp [hbin]), if_neg hL1, if_pos hL2]
        refine ⟨?_, fun _ => ⟨_, hw⟩, ?_⟩
        · rintro ⟨f, hf⟩; rw [hw] at hf; cases hf
        · intro f hf; rw [hw] at hf; cases hf
      · rcases mdata with _ | ⟨t, _ | ⟨hi, _ | ⟨lo, rest⟩⟩⟩
        · exact absurd (by simp) hL2
        · exact absurd (by simp) hL2
        · exact absurd (by simp) hL2
        have hhi : hi < 256 := hbytes hi (by simp)
        have hlo : lo < 256 := hbytes lo (by simp)
        rw [wsReadFrame_cons msgType t hi lo rest jsonUnmarshal hbin hL1]
        by_cases hsz : (hi * 256 + lo + 3) % 65536 ≠ (t :: hi :: lo :: rest).length
        · rw [if_pos hsz]
          refine ⟨?_, fun _ => ⟨_, rfl⟩, ?_⟩
          · rintro ⟨f, hf⟩; cases hf
          · intro f hf; cases hf
        · push_neg at hsz
          rw [if_neg (not_not_intro hsz)]
          have hlen3 : 3 ≤ (t :: hi :: lo :: rest).length := by simp
          have hlen : hi * 256 + lo + 3 = (t :: hi :: lo :: rest).length := by
            rcases Nat.lt_or_ge (hi * 256 + lo + 3) 65536 with hc | hc
            · rw [Nat.mod_eq_of_lt hc] at hsz
              exact hsz
            · exfalso
              have h2 : (hi * 256 + lo + 3) % 65536 < 3 := by omega
              omega
          have hcond : 3 ≤ (t :: hi :: lo :: rest).length ∧
              (t :: hi :: lo :: rest).length ≤ 65538 ∧
              headerLen (t :: hi :: lo :: rest) + 3 = (t :: hi :: lo :: rest).length := by
            refine ⟨hlen3, by omega, ?_⟩
            simp only [headerLen, List.getD_cons_succ, List.getD_cons_zero]
            omega
          rcases hj : jsonUnmarshal rest with e | m
          · refine ⟨fun _ => hcond, fun hc => absurd hcond hc, ?_⟩
            intro f hf; cases hf
          · refine ⟨fun _ => hcond, fun hc => absurd hcond hc, ?_⟩
            intro f hf
            injection hf with hf
            subst hf
            refine ⟨rfl, by simp, ?_⟩
            intro m' hm'
            rw [List.drop_succ_cons, List.drop_succ_cons, List.drop_succ_cons,
              List.drop_zero, hj] at hm'
            injection hm' with hm'
            subst hm'
            by_cases hc3 : m.throughputValue ≠ "" ∧ m.unsentDataAmount ≠ "" ∧
                m.totalSentByte ≠ ""
            · exact ⟨fun _ => by simp [hc3], fun h => absurd hc3 h⟩
            · exact ⟨fun h => absurd h hc3, fun _ => by simp [hc3]⟩
  · have hw : wsReadFrame msgType mdata jsonUnmarshal = .error .wsNotBinary := by
      unfold wsReadFrame
      rw [if_pos hbin]
    refine ⟨?_, fun _ => ⟨_, hw⟩, ?_⟩
    · rintro ⟨f, hf⟩; rw [hw] at hf; cases hf
    · intro f hf; rw [hw] at hf; cases hf

/-- Witness for `wsReadFrame_spec`: the 5-byte binary message
`[5, 0, 2, 48, 48]` (type `TEST_MSG`, header length 2) with a JSON parse
yielding `msg = "ok"` and empty throughput fields. -/
theorem wsReadFrame_spec_witness :
    (3 ≤ ([5, 0, 2, 48, 48] : List Nat).length ∧
      ([5, 0, 2, 48, 48] : List Nat).length ≤ 65538 ∧
      headerLen [5, 0, 2, 48, 48] + 3 = ([5, 0, 2, 48, 48] : List Nat).length) ∧
    ({ message := strBytes "ok", raw := [5, 0, 2, 48, 48], type := 5 } : GoFrame).message =
      strBytes (WsMessage.mk "ok" "" "" "").msg := by
  have T := wsReadFrame_spec 2 [5, 0, 2, 48, 48]
    (fun _ => .ok (WsMessage.mk "ok" "" "" "")) (by decide)
  refine ⟨T.1 ⟨_, rfl⟩, ?_⟩
  exact ((T.2.2 { message := strBytes "ok", raw := [5, 0, 2, 48, 48], type := 5 }
    rfl).2.2 (WsMessage.mk "ok" "" "" "") rfl).2 (by simp)

/-- The `Speed` struct of `ndt5.go`: transferred bytes (`int64`) and
nanoseconds since the beginning of the test (`time.Duration`). -/
structure Speed where
  count : Int
  elapsed : Int
deriving DecidableEq

/-- The `Output` struct of `ndt5.go`, the event type posted on the session's
channel. The two `*Failure` fields hold the wrapped error. -/
structure Output where
  curDownloadSpeed : Option Speed := none
  curUploadSpeed : Option Speed := none
  debugMessage : Option String := none
  errorMessage : Option GoErr := none
  infoMessage : Option String := none
  warningMessage : Option GoErr := none
deriving DecidableEq

/-- `Client.emitError` from `ndt5.go`: an `Output` with `ErrorMessage` set. -/
def emitErrorOutput (e : GoErr) : Output :=
  { errorMessage := some e }

/-- `Client.emitWarning` from `ndt5.go`: despite its name it fills the
`ErrorMessage` field, exactly as the source does (`Output{ErrorMessage:
&Failure{Error: err}}`); the `WarningMessage` field is never set. -/
def emitWarningOutput (e : GoErr) : Output :=
  { errorMessage := some e }

/-- `Client.emitProgress` from `ndt5.go`: an `Output` with `InfoMessage`
set. -/
def emitProgressOutput (msg : String) : Output :=
  { infoMessage := some msg }

/-- One iteration of the test loop of `Client.run` (`ndt5.go`): switch on the
test id; for `nettestDownload`/`nettestUpload` emit the progress line, run
the test (whose returned error, if any, is the `Except` outcome given here)
and on error emit it through `emitWarning` with the `"... failed"` wrap; ids
other than download/upload are skipped. Emissions made inside
`runDownload`/`runUpload` themselves are abstracted away: only the returned
error is observed. -/
def runTestsStep (idOutcome : Nat × Except GoErr Unit) : List Output :=
  if idOutcome.1 = nettestDownload then
    emitProgressOutput "running the download test" ::
      (match idOutcome.2 with
       | .error e => [emitWarningOutput (.wrap "download failed" e)]
       | .ok _ => [])
  else if idOutcome.1 = nettestUpload then
    emitProgressOutput "running the upload test" ::
      (match idOutcome.2 with
       | .error e => [emitWarningOutput (.wrap "upload failed" e)]
       | .ok _ => [])
  else []

/-- The full test loop of `Client.run`: iterate `runTestsStep` over the test
plan. -/
def runTestPhase (tests : List (Nat × Except GoErr Unit)) : List Output :=
  tests.foldr (fun t acc => runTestsStep t ++ acc) []

/-- `Client.run` from the test loop onward (`ndt5.go` lines 909-931): run
each test of the plan, then emit `"receiving the results"`, then either the
`recvResultsAndLogout` failure (as a fatal `Error` event) or the final
`"finished successfully"` progress line. -/
def runFromTests (tests : List (Nat × Except GoErr Unit))
    (resultsOutcome : Except GoErr Unit) : List Output :=
  runTestPhase tests ++
    emitProgressOutput "receiving the results" ::
      (match resultsOutcome with
       | .error e => [emitErrorOutput (.wrap "recvResultsAndLogout failed" e)]
       | .ok _ => [emitProgressOutput "finished successfully"])

/-- Claim C1 counterexample: in a session whose one download test fails with
an I/O error, no emitted `Output` ever has its `WarningMessage` field set —
the failure is emitted with the `ErrorMessage` field set instead (the
`emitWarning` helper fills `ErrorMessage`), refuting the claim that the
error is emitted with `WarningMessage` set. -/
theorem run_warning_field_counterexample :
    (runFromTests [(nettestDownload, .error .ioError)] (.ok ()) =
      [emitProgressOutput "running the download test",
       emitWarningOutput (.wrap "download failed" .ioError),
       emitProgressOutput "receiving the results",
       emitProgressOutput "finished successfully"]) ∧
    (∀ o ∈ runFromTests [(nettestDownload, .error .ioError)] (.ok ()),
      o.warningMessage = none) ∧
    (emitWarningOutput (.wrap "download failed" .ioError)).errorMessage =
      some (.wrap "download failed" .ioError) := by
  refine ⟨rfl, ?_, rfl⟩
  intro o ho
  simp only [runFromTests, runTestPhase, runTestsStep, List.foldr] at ho
  fin_cases ho <;> rfl

/-- Claim C1 as amended: every error returned by a single test run
(`runDownload` or `runUpload`) is emitted through `emitWarning` — which sets
the `Output`'s `ErrorMessage` field and leaves `WarningMessage` nil — and
the session then continues with the remaining tests and the results phase
instead of terminating. -/
theorem run_test_error_nonfatal (pre post : List (Nat × Except GoErr Unit))
    (e : GoErr) (r : Except GoErr Unit) (testID : Nat)
    (h : testID = nettestDownload ∨ testID = nettestUpload) :
    ∃ name,
      runFromTests (pre ++ (testID, .error e) :: post) r =
        runTestPhase pre ++
          emitProgressOutput ("running the " ++ name ++ " test") ::
          emitWarningOutput (.wrap (name ++ " failed") e) ::
          runFromTests post r ∧
      (emitWarningOutput (.wrap (name ++ " failed") e)).errorMessage =
        some (.wrap (name ++ " failed") e) ∧
      (emitWarningOutput (.wrap (name ++ " failed") e)).warningMessage = none := by
  have hfold : ∀ (l : List (Nat × Except GoErr Unit)) (A : List Output),
      List.foldr (fun t acc => runTestsStep t ++ acc) A l = runTestPhase l ++ A := by
    intro l
    induction l with
    | nil => intro A; rfl
    | cons x xs ih =>
      intro A
      show runTestsStep x ++ List.foldr (fun t acc => runTestsStep t ++ acc) A xs =
        (runTestsStep x ++ runTestPhase xs) ++ A
      rw [ih, List.append_assoc]
  have hsplit : ∀ l₁ l₂ : List (Nat × Except GoErr Unit),
      runTestPhase (l₁ ++ l₂) = runTestPhase l₁ ++ runTestPhase l₂ := by
    intro l₁ l₂
    simp only [runTestPhase, List.foldr_append]
    exact hfold l₁ (runTestPhase l₂)
  have hcons : ∀ (x : Nat × Except GoErr Unit) (l : List (Nat × Except GoErr Unit)),
      runTestPhase (x :: l) = runTestsStep x ++ runTestPhase l := fun _ _ => rfl
  rcases h with h | h
  · refine ⟨"download", ?_, rfl, rfl⟩
    subst h
    simp only [runFromTests, hsplit, hcons]
    simp [runTestsStep, List.append_assoc]
  · refine ⟨"upload", ?_, rfl, rfl⟩
    subst h
    simp only [runFromTests, hsplit, hcons]
    simp [runTestsStep, nettestUpload, nettestDownload, List.append_assoc]

/-- Witness for `run_test_error_nonfatal`: a failing upload between a
successful download and the results phase. -/
theorem run_test_error_nonfatal_witness :
    ∃ name,
      runFromTests ([(nettestDownload, .ok ())] ++ (nettestUpload, .error .ioError) :: [])
          (.ok ()) =
        runTestPhase [(nettestDownload, .ok ())] ++
          emitProgressOutput ("running the " ++ name ++ " test") ::
          emitWarningOutput (.wrap (name ++ " failed") .ioError) ::
          runFromTests [] (.ok ()) ∧
      (emitWarningOutput (.wrap (name ++ " failed") .ioError)).errorMessage =
        some (.wrap (name ++ " failed") .ioError) ∧
      (emitWarningOutput (.wrap (name ++ " failed") .ioError)).warningMessage = none :=
  run_test_error_nonfatal [(nettestDownload, .ok ())] [] .ioError (.ok ())
    nettestUpload (Or.inr rfl)

/-- `unicode.IsSpace` (as used by `strings.TrimSpace`): the Unicode
white-space code points. -/
def isGoSpace (c : Char) : Bool :=
  let v := c.toNat
  (9 ≤ v && v ≤ 13) || v = 32 || v = 133 || v = 160 || v = 5760 ||
    (8192 ≤ v && v ≤ 8202) || v = 8232 || v = 8233 || v = 8239 || v = 8287 || v = 12288

/-- `strings.TrimSpace`: drop white space from both ends of the string. -/
def goTrimSpace (s : String) : String :=
  ⟨((s.data.dropWhile isGoSpace).reverse.dropWhile isGoSpace).reverse⟩

/-- Split a character list at its first `':'`, if any — the semantics of
`strings.SplitN(m, ":", 2)`. -/
def splitFirstColon : List Char → Option (List Char × List Char)
  | [] => none
  | c :: rest =>
    if c = ':' then some ([], rest)
    else
      match splitFirstColon rest with
      | none => none
      | some (a, b) => some (c :: a, b)

/-- `strings.SplitN(m, ":", 2)`: the one-element list `[m]` when `m` has no
colon, otherwise the parts before and after the first colon. -/
def goSplitN2Colon (m : String) : List String :=
  match splitFirstColon m.data with
  | none => [m]
  | some (a, b) => [⟨a⟩, ⟨b⟩]

/-- Go map insertion (`m[k] = v`) on an association-list model of
`Result.Web100`: replace the binding when the key exists, append it
otherwise. -/
def mapInsert (m : List (String × String)) (k v : String) : List (String × String) :=
  if m.any (fun p => p.1 = k) then m.map (fun p => if p.1 = k then (k, v) else p)
  else m ++ [(k, v)]

/-- `Client.parseWeb100Message` from `ndt5.go`: split the line on the first
`':'` with `strings.SplitN(m, ":", 2)`; fewer than 2 parts is an error and
nothing is inserted; otherwise insert the whitespace-trimmed key and value
into the web100 result map. -/
def parseWeb100Message (web100 : List (String × String)) (m : String) :
    Except GoErr (List (String × String)) :=
  let kv := goSplitN2Colon m
  if kv.length < 2 then .error (.errorf ("cannot parse web100 message: " ++ m))
  else .ok (mapInsert web100 (goTrimSpace (kv.getD 0 "")) (goTrimSpace (kv.getD 1 "")))

/-- One iteration of the results loop of `Client.runDownload` on a
`TEST_MSG` body: emit the `web100:` progress line, parse the body, and on a
parse failure emit the error through `emitWarning`, leaving the map
unchanged. Returns the updated map and the outputs emitted. -/
def web100LoopStep (web100 : List (String × String)) (mdata : String) :
    List (String × String) × List Output :=
  match parseWeb100Message web100 mdata with
  | .ok updated => (updated, [emitProgressOutput ("web100: " ++ mdata)])
  | .error e => (web100, [emitProgressOutput ("web100: " ++ mdata), emitWarningOutput e])

/-- `splitFirstColon` on a list with no colon yields `none`; prepending a
colon-free prefix to `':' :: post` splits exactly there. -/
theorem splitFirstColon_spec :
    (∀ l : List Char, (¬ ':' ∈ l) → splitFirstColon l = none) ∧
    (∀ pre post : List Char, (¬ ':' ∈ pre) →
      splitFirstColon (pre ++ ':' :: post) = some (pre, post)) := by
  constructor
  · intro l hl
    induction l with
    | nil => rfl
    | cons c rest ih =>
      have hc : ¬ c = ':' := fun h => hl (by simp [h])
      have hr : ¬ ':' ∈ rest := fun h => hl (by simp [h])
      simp [splitFirstColon, hc, ih hr]
  · intro pre post hpre
    induction pre with
    | nil => simp [splitFirstColon]
    | cons c rest ih =>
      have hc : ¬ c = ':' := fun h => hpre (by simp [h])
      have hr : ¬ ':' ∈ rest := fun h => hpre (by simp [h])
      simp [splitFirstColon, hc, ih hr]

/-- Claim C8: a web100 line is split on its first `':'` into key and value,
each trimmed of leading and trailing whitespace, and inserted into the
result map — in particular `"TCPInfo.MinRTT: 12345 "` inserts
`"TCPInfo.MinRTT" ↦ "12345"`; a line lacking a `':'` is not inserted: the
loop leaves the map unchanged and reports the failure through the
`emitWarning` helper instead. -/
theorem web100_parse (web100 : List (String × String)) (m : String) :
    (parseWeb100Message web100 "TCPInfo.MinRTT: 12345 " =
      .ok (mapInsert web100 "TCPInfo.MinRTT" "12345")) ∧
    (∀ pre post : List Char, (¬ ':' ∈ pre) → m = ⟨pre ++ ':' :: post⟩ →
      parseWeb100Message web100 m =
        .ok (mapInsert web100 (goTrimSpace ⟨pre⟩) (goTrimSpace ⟨post⟩))) ∧
    ((¬ ':' ∈ m.data) →
      parseWeb100Message web100 m =
        .error (.errorf ("cannot parse web100 message: " ++ m)) ∧
      web100LoopStep web100 m =
        (web100, [emitProgressOutput ("web100: " ++ m),
          emitWarningOutput (.errorf ("cannot parse web100 message: " ++ m))])) := by
  refine ⟨rfl, ?_, ?_⟩
  · intro pre post hpre hm
    subst hm
    simp [parseWeb100Message, goSplitN2Colon, splitFirstColon_spec.2 pre post hpre]
  · intro hm
    have hn := splitFirstColon_spec.1 m.data hm
    refine ⟨?_, ?_⟩
    · simp [parseWeb100Message, goSplitN2Colon, hn]
    · simp [web100LoopStep, parseWeb100Message, goSplitN2Colon, hn]

/-- Witness for `web100_parse`: the split case at `"a: b "` and the
missing-colon case at `"nocolon"`. -/
theorem web100_parse_witness :
    (parseWeb100Message [] "a: b " =
      .ok (mapInsert [] (goTrimSpace ⟨['a']⟩) (goTrimSpace ⟨[' ', 'b', ' ']⟩))) ∧
    (parseWeb100Message [] "nocolon" =
      .error (.errorf ("cannot parse web100 message: " ++ "nocolon")) ∧
      web100LoopStep [] "nocolon" =
        ([], [emitProgressOutput ("web100: " ++ "nocolon"),
          emitWarningOutput (.errorf ("cannot parse web100 message: " ++ "nocolon"))])) := by
  refine ⟨?_, ?_⟩
  · exact (web100_parse [] "a: b ").2.1 ['a'] [' ', 'b', ' '] (by decide) rfl
  · exact (web100_parse [] "nocolon").2.2 (by decide)

/-- One iteration of a measurement pump loop (`Client.downloader` and
`Client.uploader` in `ndt5.go`, which have the same sampling structure):
`bytes` is the value returned by the iteration's I/O call
(`ReadDiscard` / `WritePreparedMessage`), `tick` records whether the 250 ms
ticker had fired at the `select`, and `elapsed` is the value
`time.Since(begin)` would report at that instant. The loop exits at the
first I/O error, so a trace is the list of successful iterations. -/
structure PumpStep where
  bytes : Int
  tick : Bool
  elapsed : Int
deriving DecidableEq

/-- The samples a pump loop emits along a trace: the running byte count is
accumulated every iteration, and `Speed #⟨count, elapsed⟩` is emitted exactly
at the iterations whose tick fired (the non-blocking `select` branch). -/
def samplerEmits (count : Int) : List PumpStep → List Speed
  | [] => []
  | s :: rest =>
    (if s.tick then [⟨count + s.bytes, s.elapsed⟩] else []) ++
      samplerEmits (count + s.bytes) rest

/-- Every emitted sample's count is at least the entry count, and its elapsed
value is one of the trace's elapsed values. -/
theorem samplerEmits_mem (steps : List PumpStep) :
    ∀ count : Int, (∀ s ∈ steps, 0 ≤ s.bytes) →
      ∀ y ∈ samplerEmits count steps,
        count ≤ y.count ∧ ∃ s ∈ steps, y.elapsed = s.elapsed := by
  induction steps with
  | nil =>
    intro count _ y hy
    simp [samplerEmits] at hy
  | cons s rest ih =>
    intro count hb y hy
    have h0 : 0 ≤ s.bytes := hb s (by simp)
    have hb' : ∀ x ∈ rest, 0 ≤ x.bytes := fun x hx => hb x (by simp [hx])
    simp only [samplerEmits] at hy
    rcases List.mem_append.mp hy with hy | hy
    · by_cases htk : s.tick
      · simp only [htk, if_pos, List.mem_singleton] at hy
        subst hy
        refine ⟨?_, s, by simp, rfl⟩
        show count ≤ count + s.bytes
        omega
      · simp [htk] at hy
    · obtain ⟨h1, s', hs', h2⟩ := ih (count + s.bytes) hb' y hy
      exact ⟨by omega, s', by simp [hs'], h2⟩

/-- Claim C9: along any trace whose per-iteration byte counts are
non-negative (the `io` contract for reads/writes) and whose
`time.Since(begin)` values are monotone (a monotonic clock), the samples a
pump loop (downloader or uploader) emits have pairwise non-decreasing count
and pairwise non-decreasing elapsed: each emitted sample's `Count` is at
least the previous sample's and likewise for `Elapsed`. -/
theorem sampler_monotone_samples (steps : List PumpStep)
    (hbytes : ∀ s ∈ steps, 0 ≤ s.bytes)
    (htime : steps.Pairwise (fun a b => a.elapsed ≤ b.elapsed)) :
    (samplerEmits 0 steps).Pairwise
      (fun a b => a.count ≤ b.count ∧ a.elapsed ≤ b.elapsed) := by
  suffices h : ∀ count : Int, (∀ s ∈ steps, 0 ≤ s.bytes) →
      steps.Pairwise (fun a b => a.elapsed ≤ b.elapsed) →
      (samplerEmits count steps).Pairwise
        (fun a b => a.count ≤ b.count ∧ a.elapsed ≤ b.elapsed) from
    h 0 hbytes htime
  clear hbytes htime
  induction steps with
  | nil =>
    intro count _ _
    simp [samplerEmits]
  | cons s rest ih =>
    intro count hb ht
    have hb' : ∀ x ∈ rest, 0 ≤ x.bytes := fun x hx => hb x (by simp [hx])
    have hts := (List.pairwise_cons.mp ht).1
    have ht' := (List.pairwise_cons.mp ht).2
    have hrest := ih (count + s.bytes) hb' ht'
    by_cases htk : s.tick
    · simp only [samplerEmits, htk, if_pos, List.singleton_append]
      refine List.pairwise_cons.mpr ⟨?_, hrest⟩
      intro y hy
      obtain ⟨h1, s', hs', h2⟩ := samplerEmits_mem rest (count + s.bytes) hb' y hy
      exact ⟨h1, h2 ▸ hts s' hs'⟩
    · simpa [samplerEmits, htk] using hrest

/-- Witness for `sampler_monotone_samples`: a 3-iteration trace with two
ticks. -/
theorem sampler_monotone_samples_witness :
    (samplerEmits 0
        [⟨100, true, 10⟩, ⟨50, false, 20⟩, ⟨25, true, 30⟩]).Pairwise
      (fun a b => a.count ≤ b.count ∧ a.elapsed ≤ b.elapsed) :=
  sampler_monotone_samples _ (by decide) (by decide)

/-- The `TestResult` struct of `ndt5.go`: last client-measured download
sample, server-measured upload speed, and the web100 map. -/
structure TestResult where
  clientMeasuredDownload : Speed
  serverMeasuredUpload : Float
  web100 : List (String × String)

/-- The client-speed block of `Client.runDownload` (`ndt5.go` lines
1056-1068), after the sampler channel has been drained: `clientSpeed` is the
`float64` zero value unless a last sample exists, in which case the sample
is stored into `Result.ClientMeasuredDownload` and the speed is
`8 * count / (elapsed / time.Millisecond)` in `float64`; the speed is then
formatted with `fmt.Sprintf("%f", ·)` (passed in abstractly as `sprintfF`)
and sent to the server as the body of a `TEST_MSG` frame. Returns the
updated result, the message type and the sent body bytes. -/
def runDownloadClientSpeedPhase (result : TestResult) (lastSample : Option Speed)
    (sprintfF : Float → String) : TestResult × Nat × List Nat :=
  let rc : TestResult × Float :=
    match lastSample with
    | none => (result, 0)
    | some s =>
      ({ result with clientMeasuredDownload := s },
        8 * Float.ofInt s.count / Float.ofInt (s.elapsed.tdiv 1000000))
  (rc.1, msgTestMsg, strBytes (sprintfF rc.2))

/-- Claim C10: when the download sampler closed its channel without emitting
a sample (`lastSample` is nil), `runDownload` still sends a `TEST_MSG` whose
text is exactly `"0.000000"` — the default `%f` formatting of the `float64`
zero value — and `Result.ClientMeasuredDownload` is left unmodified. -/
theorem download_no_sample_sends_zero (result : TestResult)
    (sprintfF : Float → String) (hfmt : sprintfF 0 = "0.000000") :
    runDownloadClientSpeedPhase result none sprintfF =
      (result, msgTestMsg, strBytes "0.000000") := by
  simp [runDownloadClientSpeedPhase, hfmt]

/-- Witness for `download_no_sample_sends_zero`: a concrete zero result with
the `%f` formatter fixed at its value on 0. -/
theorem download_no_sample_sends_zero_witness :
    runDownloadClientSpeedPhase ⟨⟨0, 0⟩, 0, []⟩ none (fun _ => "0.000000") =
      (⟨⟨0, 0⟩, 0, []⟩, msgTestMsg, strBytes "0.000000") :=
  download_no_sample_sends_zero ⟨⟨0, 0⟩, 0, []⟩ (fun _ => "0.000000") rfl
